import Mathlib

/-!
# Verification of the PID fan-control simulation

Shallow embedding of the control core of `src/simulacion.py`:
the discrete PID controller `ControladorPID` (`__init__`, `reiniciar`,
`calcular`) and the thermal plant `ComputadoraSimulada` (`__init__`,
`actualizar`, `ajustar_carga`).

Numbers are modelled as rationals (`ℚ`).  The single operation that is not
rational-valued is the fan-curve power `(velocidad / 100) ** 1.2` inside
`ComputadoraSimulada.actualizar` (a float power with irrational exponent);
it is abstracted as an explicit function argument `fanCurve : ℚ → ℚ`, and
every theorem about the plant below is proved for *every* such function, so
each holds in particular for the concrete power law.  The vestigial
continuous-time fields of the Python class (`self.Kp/Ki/Kd`, `pid_system`,
`state`, `time_prev`, built with the `control` library) are never read by
`calcular` and are omitted, except that `reiniciar`'s effect on the fields
`calcular` does read is embedded exactly.
-/

/-- State of `ControladorPID` (src/simulacion.py lines 35–58): gains,
setpoint, output and integrator limits, deadband, and the mutable fields
`_prev_error`, `_integral`, `_prev_output`. -/
structure ControladorPID where
  kp : ℚ
  ki : ℚ
  kd : ℚ
  setpoint : ℚ
  output_min : ℚ
  output_max : ℚ
  int_min : ℚ
  int_max : ℚ
  deadband : ℚ
  prev_error : ℚ
  integral : ℚ
  prev_output : ℚ

/-- `ControladorPID.__init__` (lines 36–58): stores the configuration and
initializes `_prev_error = 0`, `_integral = 0`, `_prev_output = 30.0`
(hardcoded literal, not `output_min`) and `deadband = 1.0`. -/
def mkControlador (kp ki kd setpoint omin omax imin imax : ℚ) : ControladorPID :=
  { kp := kp, ki := ki, kd := kd, setpoint := setpoint,
    output_min := omin, output_max := omax, int_min := imin, int_max := imax,
    deadband := 1, prev_error := 0, integral := 0, prev_output := 30 }

/-- `ControladorPID.reiniciar` (lines 60–64): zero `_prev_error` and
`_integral`, set `_prev_output = 30.0` (hardcoded literal). -/
def ControladorPID.reiniciar (c : ControladorPID) : ControladorPID :=
  { c with prev_error := 0, integral := 0, prev_output := 30 }

/-- `ControladorPID.calcular` (lines 66–96).  Returns the emitted command
together with the updated controller state. -/
def ControladorPID.calcular (c : ControladorPID) (medida dt : ℚ) :
    ℚ × ControladorPID :=
  let error := medida - c.setpoint
  if |error| < c.deadband ∧ error < c.prev_error then
    (c.prev_output, { c with prev_error := error })
  else
    let p := c.kp * error
    let integral2 := max c.int_min (min c.int_max (c.integral + error * dt))
    let i := c.ki * integral2
    let derivative := if 0 < dt then (error - c.prev_error) / dt else 0
    let d := c.kd * derivative
    let salida := p + i + d
    let salida_final := max c.output_min (min c.output_max (c.output_min + salida))
    let max_cambio := if 10 < error then 25 * dt else 15 * dt
    let salida_slew :=
      c.prev_output + max (min (salida_final - c.prev_output) max_cambio) (-max_cambio)
    (salida_slew,
      { c with prev_error := error, integral := integral2, prev_output := salida_slew })

/-- One driver-visible operation on the controller: a `calcular` call or a
`reiniciar` call. -/
inductive CtlOp where
  | calcularOp (medida dt : ℚ)
  | reiniciarOp

/-- Apply one controller operation to the state. -/
def runCtlOp (c : ControladorPID) : CtlOp → ControladorPID
  | CtlOp.calcularOp medida dt => (c.calcular medida dt).2
  | CtlOp.reiniciarOp => c.reiniciar

/-- Apply a sequence of controller operations. -/
def runCtl (c : ControladorPID) (ops : List CtlOp) : ControladorPID :=
  ops.foldl runCtlOp c

/-- The `dt` of a `calcular` operation is nonnegative (`reiniciar` has no
`dt`). -/
def dtNonneg : CtlOp → Prop
  | CtlOp.calcularOp _ dt => 0 ≤ dt
  | CtlOp.reiniciarOp => True

/-- The sequence of commands emitted by feeding `(medida, dt)` pairs to
`calcular`, threading the state. -/
def outputsFrom (c : ControladorPID) : List (ℚ × ℚ) → List ℚ
  | [] => []
  | (m, dt) :: rest =>
      (c.calcular m dt).1 :: outputsFrom (c.calcular m dt).2 rest

/-- Two controller states agree on every configuration field (everything
except `prev_error`, `integral`, `prev_output`). -/
def sameConfig (a b : ControladorPID) : Prop :=
  a.kp = b.kp ∧ a.ki = b.ki ∧ a.kd = b.kd ∧ a.setpoint = b.setpoint ∧
  a.output_min = b.output_min ∧ a.output_max = b.output_max ∧
  a.int_min = b.int_min ∧ a.int_max = b.int_max ∧ a.deadband = b.deadband

/-- State of `ComputadoraSimulada` (lines 98–122).  The field
`fan_curve_exp = 1.2` only enters through the power `(v/100) ** 1.2`,
which is abstracted as the `fanCurve` argument of `actualizar`. -/
structure ComputadoraSimulada where
  temperatura : ℚ
  temp_ambiente : ℚ
  carga_cpu : ℚ
  velocidad_ventilador : ℚ
  tdp_max : ℚ
  thermal_capacity : ℚ
  natural_k : ℚ
  fan_k : ℚ
  temp_critica : ℚ
  temp_maxima : ℚ
  temp_segura : ℚ
  temp_idle : ℚ
  danada : Bool
  tiempo_sobrecalentamiento : ℚ

/-- `ComputadoraSimulada.__init__` (lines 99–122): the fixed constants and
idle initial state. -/
def compInit : ComputadoraSimulada :=
  { temperatura := 32, temp_ambiente := 24, carga_cpu := 0,
    velocidad_ventilador := 30, tdp_max := 180, thermal_capacity := 150,
    natural_k := 3 / 10, fan_k := 6, temp_critica := 95, temp_maxima := 110,
    temp_segura := 70, temp_idle := 40, danada := false,
    tiempo_sobrecalentamiento := 0 }

/-- `ComputadoraSimulada.actualizar` (lines 124–154), with the fan-curve
power `(velocidad / 100) ** 1.2` abstracted as `fanCurve` applied to the
clamped speed. -/
def ComputadoraSimulada.actualizar (fanCurve : ℚ → ℚ)
    (s : ComputadoraSimulada) (velocidad dt : ℚ) : ComputadoraSimulada :=
  let v := max 0 (min 100 velocidad)
  let watts_generados := (s.carga_cpu / 100) * s.tdp_max
  let delta_temp := max (1 / 100) (s.temperatura - s.temp_ambiente)
  let p_pasiva := s.natural_k * delta_temp
  let p_activa := (s.fan_k * fanCurve v) * delta_temp
  let dTdt := (watts_generados - (p_pasiva + p_activa)) / s.thermal_capacity
  let t1 := s.temperatura + dTdt * dt
  let t2 := if t1 < s.temp_ambiente then s.temp_ambiente else t1
  let t3 := if s.temp_maxima ≤ t2 then s.temp_maxima else t2
  let d1 := if s.temp_maxima ≤ t2 then true else s.danada
  if s.temp_critica ≤ t3 then
    { s with velocidad_ventilador := v, temperatura := t3,
             danada := if 10 < s.tiempo_sobrecalentamiento + dt then true else d1,
             tiempo_sobrecalentamiento := s.tiempo_sobrecalentamiento + dt }
  else
    { s with velocidad_ventilador := v, temperatura := t3, danada := d1,
             tiempo_sobrecalentamiento :=
               max 0 (s.tiempo_sobrecalentamiento - dt * 2) }

/-- `ComputadoraSimulada.ajustar_carga` (lines 156–157). -/
def ComputadoraSimulada.ajustar_carga (s : ComputadoraSimulada) (nueva : ℚ) :
    ComputadoraSimulada :=
  { s with carga_cpu := max 0 (min 100 nueva) }

/-- One driver-visible operation on the plant: a `step` (`actualizar`) or a
`set_load` (`ajustar_carga`). -/
inductive PlantOp where
  | actualizarOp (velocidad dt : ℚ)
  | ajustarCargaOp (nueva : ℚ)

/-- Apply one plant operation to the state. -/
def runPlantOp (fanCurve : ℚ → ℚ) (s : ComputadoraSimulada) :
    PlantOp → ComputadoraSimulada
  | PlantOp.actualizarOp v dt => s.actualizar fanCurve v dt
  | PlantOp.ajustarCargaOp x => s.ajustar_carga x

/-- Apply a sequence of plant operations. -/
def runPlant (fanCurve : ℚ → ℚ) (s : ComputadoraSimulada)
    (ops : List PlantOp) : ComputadoraSimulada :=
  ops.foldl (runPlantOp fanCurve) s

/-- The clamped integral accumulator after a (non-deadband) `calcular` call:
`max(int_min, min(int_max, integral + error*dt))` (line 75–76). -/
def pidIntegralNext (c : ControladorPID) (m dt : ℚ) : ℚ :=
  max c.int_min (min c.int_max (c.integral + (m - c.setpoint) * dt))

/-- The raw command `output_min + (P + I + D)` clamped into
`[output_min, output_max]` (lines 83–87). -/
def pidCommandClamped (c : ControladorPID) (m dt : ℚ) : ℚ :=
  max c.output_min (min c.output_max
    (c.output_min +
      (c.kp * (m - c.setpoint) + c.ki * pidIntegralNext c m dt +
        c.kd * (if 0 < dt then (m - c.setpoint - c.prev_error) / dt else 0))))

/-- The per-tick slew limit: `25*dt` when `error > 10`, else `15*dt`
(lines 89–92). -/
def pidMaxCambio (c : ControladorPID) (m dt : ℚ) : ℚ :=
  if 10 < m - c.setpoint then 25 * dt else 15 * dt

/-- The command after slew-rate limiting (line 93). -/
def pidSlewOutput (c : ControladorPID) (m dt : ℚ) : ℚ :=
  c.prev_output +
    max (min (pidCommandClamped c m dt - c.prev_output) (pidMaxCambio c m dt))
      (-pidMaxCambio c m dt)

/-- Invariant for the emitted-command range: the configured limits are
`omin`/`omax` and the stored previous output lies between them. -/
def OutInv (omin omax : ℚ) (c : ControladorPID) : Prop :=
  c.output_min = omin ∧ c.output_max = omax ∧
    omin ≤ c.prev_output ∧ c.prev_output ≤ omax

/-- Invariant for the integral accumulator: the configured integrator limits
are `imin`/`imax` and the accumulator lies between them. -/
def IntInv (imin imax : ℚ) (c : ControladorPID) : Prop :=
  c.int_min = imin ∧ c.int_max = imax ∧ imin ≤ c.integral ∧ c.integral ≤ imax

/-- The explicit-Euler temperature update of `actualizar` before any
clamping (lines 128–140). -/
def plantEuler (fanCurve : ℚ → ℚ) (s : ComputadoraSimulada) (v dt : ℚ) : ℚ :=
  s.temperatura +
    ((s.carga_cpu / 100) * s.tdp_max -
        (s.natural_k * max (1 / 100) (s.temperatura - s.temp_ambiente) +
          (s.fan_k * fanCurve (max 0 (min 100 v))) *
            max (1 / 100) (s.temperatura - s.temp_ambiente))) /
      s.thermal_capacity * dt

/-- The temperature after the ambient floor (lines 142–143). -/
def plantTempAmbClamped (fanCurve : ℚ → ℚ) (s : ComputadoraSimulada)
    (v dt : ℚ) : ℚ :=
  if plantEuler fanCurve s v dt < s.temp_ambiente then s.temp_ambiente
  else plantEuler fanCurve s v dt

/-- The temperature after the absolute-max ceiling (lines 145–146); this is
the post-integration temperature stored by `actualizar`. -/
def plantTempNext (fanCurve : ℚ → ℚ) (s : ComputadoraSimulada)
    (v dt : ℚ) : ℚ :=
  if s.temp_maxima ≤ plantTempAmbClamped fanCurve s v dt then s.temp_maxima
  else plantTempAmbClamped fanCurve s v dt

/-- The damage flag after the absolute-max check (line 147) but before the
overheat-timer check. -/
def plantDanada1 (fanCurve : ℚ → ℚ) (s : ComputadoraSimulada)
    (v dt : ℚ) : Bool :=
  if s.temp_maxima ≤ plantTempAmbClamped fanCurve s v dt then true
  else s.danada

/-- `calcular` decomposed into the named helper quantities; the two sides are
definitionally equal. -/
theorem calcular_eq (c : ControladorPID) (m dt : ℚ) :
    c.calcular m dt =
      if |m - c.setpoint| < c.deadband ∧ m - c.setpoint < c.prev_error then
        (c.prev_output, { c with prev_error := m - c.setpoint })
      else
        (pidSlewOutput c m dt,
          { c with prev_error := m - c.setpoint,
                   integral := pidIntegralNext c m dt,
                   prev_output := pidSlewOutput c m dt }) := rfl

/-- The slew limit is nonnegative whenever `dt` is. -/
theorem pidMaxCambio_nonneg (c : ControladorPID) (m dt : ℚ) (hdt : 0 ≤ dt) :
    0 ≤ pidMaxCambio c m dt := by
  unfold pidMaxCambio
  split <;> linarith

/-- The clamped raw command lies in `[output_min, output_max]` as soon as the
limits are ordered. -/
theorem pidCommandClamped_mem (c : ControladorPID) (m dt : ℚ)
    (h : c.output_min ≤ c.output_max) :
    c.output_min ≤ pidCommandClamped c m dt ∧
      pidCommandClamped c m dt ≤ c.output_max := by
  unfold pidCommandClamped
  exact ⟨le_max_left _ _, max_le h (min_le_left _ _)⟩

/-- The symmetric clamp of a step toward `target` keeps the result between the
bounds that contain both `prev` and `target`. -/
theorem slew_clamp_bounds (lo hi prev target mc : ℚ) (hmc : 0 ≤ mc)
    (h1 : lo ≤ prev) (h2 : prev ≤ hi) (h3 : lo ≤ target) (h4 : target ≤ hi) :
    lo ≤ prev + max (min (target - prev) mc) (-mc) ∧
      prev + max (min (target - prev) mc) (-mc) ≤ hi := by
  have hub : max (min (target - prev) mc) (-mc) ≤ max (target - prev) 0 := by
    apply max_le
    · exact le_trans (min_le_left _ _) (le_max_left _ _)
    · exact le_trans (by linarith) (le_max_right (target - prev) 0)
  have hlb : min (target - prev) 0 ≤ max (min (target - prev) mc) (-mc) := by
    exact le_trans (min_le_min (le_refl _) hmc) (le_max_left _ _)
  constructor
  · rcases le_total (target - prev) 0 with h | h
    · rw [min_eq_left h] at hlb; linarith
    · rw [min_eq_right h] at hlb; linarith
  · rcases le_total (target - prev) 0 with h | h
    · rw [max_eq_right h] at hub; linarith
    · rw [max_eq_left h] at hub; linarith

/-- The slewed output stays inside `[output_min, output_max]` whenever the
previous output does and `dt ≥ 0`. -/
theorem pidSlewOutput_mem (c : ControladorPID) (m dt : ℚ) (hdt : 0 ≤ dt)
    (h1 : c.output_min ≤ c.prev_output) (h2 : c.prev_output ≤ c.output_max) :
    c.output_min ≤ pidSlewOutput c m dt ∧ pidSlewOutput c m dt ≤ c.output_max := by
  have hmem := pidCommandClamped_mem c m dt (le_trans h1 h2)
  unfold pidSlewOutput
  exact slew_clamp_bounds c.output_min c.output_max c.prev_output
    (pidCommandClamped c m dt) (pidMaxCambio c m dt)
    (pidMaxCambio_nonneg c m dt hdt) h1 h2 hmem.1 hmem.2

/-- The command emitted by `calcular` stays in `[output_min, output_max]`
whenever the previously emitted command does and `dt ≥ 0`. -/
theorem calcular_output_mem (c : ControladorPID) (m dt : ℚ) (hdt : 0 ≤ dt)
    (h1 : c.output_min ≤ c.prev_output) (h2 : c.prev_output ≤ c.output_max) :
    c.output_min ≤ (c.calcular m dt).1 ∧ (c.calcular m dt).1 ≤ c.output_max := by
  rw [calcular_eq]
  split_ifs
  · exact ⟨h1, h2⟩
  · exact pidSlewOutput_mem c m dt hdt h1 h2

/-- In both branches of `calcular` the returned value is exactly the stored
`prev_output` of the updated state. -/
theorem calcular_fst_eq_prev_output (c : ControladorPID) (m dt : ℚ) :
    (c.calcular m dt).2.prev_output = (c.calcular m dt).1 := by
  rw [calcular_eq]
  split_ifs <;> rfl

/-- `calcular` never modifies a configuration field. -/
theorem calcular_sameConfig (c : ControladorPID) (m dt : ℚ) :
    sameConfig ((c.calcular m dt).2) c := by
  rw [calcular_eq]
  split_ifs <;>
    exact ⟨rfl, rfl, rfl, rfl, rfl, rfl, rfl, rfl, rfl⟩

/-- `calcular` keeps the integral accumulator inside `[int_min, int_max]`
whenever it starts there (in the deadband branch it is untouched, otherwise
it is clamped). -/
theorem calcular_integral_mem (c : ControladorPID) (m dt : ℚ)
    (h1 : c.int_min ≤ c.integral) (h2 : c.integral ≤ c.int_max) :
    c.int_min ≤ (c.calcular m dt).2.integral ∧
      (c.calcular m dt).2.integral ≤ c.int_max := by
  rw [calcular_eq]
  split_ifs
  · exact ⟨h1, h2⟩
  · refine ⟨le_max_left _ _, ?_⟩
    exact max_le (le_trans h1 h2) (min_le_left _ _)

/-- The change of the emitted command in one `calcular` call is bounded by the
slew limit. -/
theorem calcular_slew_bound (c : ControladorPID) (m dt : ℚ) (hdt : 0 ≤ dt) :
    |(c.calcular m dt).1 - c.prev_output| ≤ pidMaxCambio c m dt := by
  have hmc := pidMaxCambio_nonneg c m dt hdt
  rw [calcular_eq]
  split_ifs
  · rw [sub_self, abs_zero]; exact hmc
  · show |pidSlewOutput c m dt - c.prev_output| ≤ _
    unfold pidSlewOutput
    have hx : c.prev_output +
        max (min (pidCommandClamped c m dt - c.prev_output) (pidMaxCambio c m dt))
          (-pidMaxCambio c m dt) - c.prev_output =
        max (min (pidCommandClamped c m dt - c.prev_output) (pidMaxCambio c m dt))
          (-pidMaxCambio c m dt) := by ring
    rw [hx, abs_le]
    exact ⟨le_max_right _ _, max_le (min_le_right _ _) (by linarith)⟩

/-- The deadband early return (lines 69–71): when `|error| < deadband` and the
error is strictly decreasing, `calcular` returns `prev_output` and only
updates `prev_error`. -/
theorem calcular_deadband (c : ControladorPID) (m dt : ℚ)
    (h1 : |m - c.setpoint| < c.deadband) (h2 : m - c.setpoint < c.prev_error) :
    c.calcular m dt = (c.prev_output, { c with prev_error := m - c.setpoint }) := by
  rw [calcular_eq, if_pos ⟨h1, h2⟩]

/-- One controller operation preserves `OutInv`, provided the hardcoded reset
value `30` lies between the limits and the call's `dt` is nonnegative. -/
theorem outInv_runCtlOp (omin omax : ℚ) (h30 : omin ≤ 30 ∧ 30 ≤ omax)
    (c : ControladorPID) (hc : OutInv omin omax c) (op : CtlOp)
    (hop : dtNonneg op) : OutInv omin omax (runCtlOp c op) := by
  obtain ⟨e1, e2, b1, b2⟩ := hc
  cases op with
  | calcularOp m dt =>
      have hsc := calcular_sameConfig c m dt
      have hout := calcular_output_mem c m dt hop (by rw [e1]; exact b1)
        (by rw [e2]; exact b2)
      have hfst := calcular_fst_eq_prev_output c m dt
      refine ⟨by unfold runCtlOp; rw [hsc.2.2.2.2.1, e1],
        by unfold runCtlOp; rw [hsc.2.2.2.2.2.1, e2], ?_, ?_⟩
      · show omin ≤ (runCtlOp c (CtlOp.calcularOp m dt)).prev_output
        unfold runCtlOp
        rw [hfst, ← e1]
        exact hout.1
      · show (runCtlOp c (CtlOp.calcularOp m dt)).prev_output ≤ omax
        unfold runCtlOp
        rw [hfst, ← e2]
        exact hout.2
  | reiniciarOp =>
      exact ⟨e1, e2, h30.1, h30.2⟩

/-- `OutInv` holds after any sequence of operations with nonnegative `dt`s,
starting from a state satisfying it. -/
theorem outInv_runCtl (omin omax : ℚ) (h30 : omin ≤ 30 ∧ 30 ≤ omax) :
    ∀ (ops : List CtlOp) (c : ControladorPID), OutInv omin omax c →
      (∀ op ∈ ops, dtNonneg op) → OutInv omin omax (runCtl c ops) := by
  intro ops
  induction ops with
  | nil => exact fun c hc _ => hc
  | cons op rest ih =>
      intro c hc hops
      have h1 := hops op (List.mem_cons_self _ _)
      have h2 : ∀ o ∈ rest, dtNonneg o := fun o ho => hops o (List.mem_cons_of_mem _ ho)
      exact ih (runCtlOp c op) (outInv_runCtlOp omin omax h30 c hc op h1) h2

/-- One controller operation preserves `IntInv`, provided `0` lies between the
integrator limits (needed because `reiniciar` zeroes the accumulator and the
deadband branch of `calcular` leaves it untouched). -/
theorem intInv_runCtlOp (imin imax : ℚ) (h0 : imin ≤ 0 ∧ 0 ≤ imax)
    (c : ControladorPID) (hc : IntInv imin imax c) (op : CtlOp) :
    IntInv imin imax (runCtlOp c op) := by
  obtain ⟨e1, e2, b1, b2⟩ := hc
  cases op with
  | calcularOp m dt =>
      have hsc := calcular_sameConfig c m dt
      have hint := calcular_integral_mem c m dt (by rw [e1]; exact b1)
        (by rw [e2]; exact b2)
      refine ⟨by unfold runCtlOp; rw [hsc.2.2.2.2.2.2.1, e1],
        by unfold runCtlOp; rw [hsc.2.2.2.2.2.2.2.1, e2], ?_, ?_⟩
      · show imin ≤ (runCtlOp c (CtlOp.calcularOp m dt)).integral
        unfold runCtlOp
        rw [← e1]
        exact hint.1
      · show (runCtlOp c (CtlOp.calcularOp m dt)).integral ≤ imax
        unfold runCtlOp
        rw [← e2]
        exact hint.2
  | reiniciarOp =>
      exact ⟨e1, e2, h0.1, h0.2⟩

/-- `IntInv` holds after any sequence of operations, starting from a state
satisfying it. -/
theorem intInv_runCtl (imin imax : ℚ) (h0 : imin ≤ 0 ∧ 0 ≤ imax) :
    ∀ (ops : List CtlOp) (c : ControladorPID), IntInv imin imax c →
      IntInv imin imax (runCtl c ops) := by
  intro ops
  induction ops with
  | nil => exact fun c hc => hc
  | cons op rest ih =>
      intro c hc
      exact ih (runCtlOp c op) (intInv_runCtlOp imin imax h0 c hc op)

theorem sameConfig_trans (a b c : ControladorPID)
    (h1 : sameConfig a b) (h2 : sameConfig b c) : sameConfig a c := by
  obtain ⟨x1, x2, x3, x4, x5, x6, x7, x8, x9⟩ := h1
  obtain ⟨y1, y2, y3, y4, y5, y6, y7, y8, y9⟩ := h2
  exact ⟨x1.trans y1, x2.trans y2, x3.trans y3, x4.trans y4, x5.trans y5,
    x6.trans y6, x7.trans y7, x8.trans y8, x9.trans y9⟩

/-- Neither `calcular` nor `reiniciar` modifies a configuration field. -/
theorem runCtlOp_sameConfig (c : ControladorPID) (op : CtlOp) :
    sameConfig (runCtlOp c op) c := by
  cases op with
  | calcularOp m dt => exact calcular_sameConfig c m dt
  | reiniciarOp =>
      exact ⟨rfl, rfl, rfl, rfl, rfl, rfl, rfl, rfl, rfl⟩

/-- A whole operation sequence leaves the configuration untouched. -/
theorem runCtl_sameConfig :
    ∀ (ops : List CtlOp) (c : ControladorPID), sameConfig (runCtl c ops) c := by
  intro ops
  induction ops with
  | nil => exact fun c => ⟨rfl, rfl, rfl, rfl, rfl, rfl, rfl, rfl, rfl⟩
  | cons op rest ih =>
      intro c
      exact sameConfig_trans _ _ _ (ih (runCtlOp c op)) (runCtlOp_sameConfig c op)

/-- Resetting two controllers with the same configuration yields the same
state: `reiniciar` erases everything except the configuration. -/
theorem reiniciar_eq_of_sameConfig (a b : ControladorPID)
    (h : sameConfig a b) : a.reiniciar = b.reiniciar := by
  cases a
  cases b
  obtain ⟨x1, x2, x3, x4, x5, x6, x7, x8, x9⟩ := h
  simp_all [ControladorPID.reiniciar, sameConfig]

/-- `actualizar` never modifies the configured temperature thresholds. -/
theorem actualizar_consts (fanCurve : ℚ → ℚ) (s : ComputadoraSimulada)
    (v dt : ℚ) :
    (s.actualizar fanCurve v dt).temp_ambiente = s.temp_ambiente ∧
      (s.actualizar fanCurve v dt).temp_maxima = s.temp_maxima ∧
      (s.actualizar fanCurve v dt).temp_critica = s.temp_critica := by
  simp only [ComputadoraSimulada.actualizar]
  split_ifs <;> exact ⟨rfl, rfl, rfl⟩

/-- A whole plant-operation sequence leaves the temperature thresholds
untouched. -/
theorem runPlant_consts (fanCurve : ℚ → ℚ) :
    ∀ (ops : List PlantOp) (s : ComputadoraSimulada),
      (runPlant fanCurve s ops).temp_ambiente = s.temp_ambiente ∧
        (runPlant fanCurve s ops).temp_maxima = s.temp_maxima ∧
        (runPlant fanCurve s ops).temp_critica = s.temp_critica := by
  intro ops
  induction ops with
  | nil => exact fun s => ⟨rfl, rfl, rfl⟩
  | cons op rest ih =>
      intro s
      have hstep :
          (runPlantOp fanCurve s op).temp_ambiente = s.temp_ambiente ∧
            (runPlantOp fanCurve s op).temp_maxima = s.temp_maxima ∧
            (runPlantOp fanCurve s op).temp_critica = s.temp_critica := by
        cases op with
        | actualizarOp v dt => exact actualizar_consts fanCurve s v dt
        | ajustarCargaOp x => exact ⟨rfl, rfl, rfl⟩
      have hrest := ih (runPlantOp fanCurve s op)
      exact ⟨hrest.1.trans hstep.1, hrest.2.1.trans hstep.2.1,
        hrest.2.2.trans hstep.2.2⟩

/-- After one `actualizar` step the temperature lies in
`[temp_ambiente, temp_maxima]`, for any fan curve, fan input and `dt`,
provided the two thresholds are ordered. -/
theorem actualizar_temp_mem (fanCurve : ℚ → ℚ) (s : ComputadoraSimulada)
    (v dt : ℚ) (h : s.temp_ambiente ≤ s.temp_maxima) :
    s.temp_ambiente ≤ (s.actualizar fanCurve v dt).temperatura ∧
      (s.actualizar fanCurve v dt).temperatura ≤ s.temp_maxima := by
  simp only [ComputadoraSimulada.actualizar]
  split_ifs <;> constructor <;> linarith

/-- `actualizar` never clears the damage flag. -/
theorem actualizar_danada_mono (fanCurve : ℚ → ℚ) (s : ComputadoraSimulada)
    (v dt : ℚ) (h : s.danada = true) :
    (s.actualizar fanCurve v dt).danada = true := by
  simp only [ComputadoraSimulada.actualizar]
  split_ifs <;> simp_all

/-- No plant-operation sequence ever clears the damage flag. -/
theorem runPlant_danada_mono (fanCurve : ℚ → ℚ) :
    ∀ (ops : List PlantOp) (s : ComputadoraSimulada), s.danada = true →
      (runPlant fanCurve s ops).danada = true := by
  intro ops
  induction ops with
  | nil => exact fun s h => h
  | cons op rest ih =>
      intro s h
      refine ih (runPlantOp fanCurve s op) ?_
      cases op with
      | actualizarOp v dt => exact actualizar_danada_mono fanCurve s v dt h
      | ajustarCargaOp x => exact h

/-- `actualizar` decomposed into the named helper quantities; the two sides
are definitionally equal. -/
theorem actualizar_eq (fanCurve : ℚ → ℚ) (s : ComputadoraSimulada)
    (v dt : ℚ) :
    s.actualizar fanCurve v dt =
      if s.temp_critica ≤ plantTempNext fanCurve s v dt then
        { s with velocidad_ventilador := max 0 (min 100 v),
                 temperatura := plantTempNext fanCurve s v dt,
                 danada := if 10 < s.tiempo_sobrecalentamiento + dt then true
                           else plantDanada1 fanCurve s v dt,
                 tiempo_sobrecalentamiento := s.tiempo_sobrecalentamiento + dt }
      else
        { s with velocidad_ventilador := max 0 (min 100 v),
                 temperatura := plantTempNext fanCurve s v dt,
                 danada := plantDanada1 fanCurve s v dt,
                 tiempo_sobrecalentamiento :=
                   max 0 (s.tiempo_sobrecalentamiento - dt * 2) } := rfl

/-- Claim C1 (counterexample): the emitted command is *not* always within
`[output_min, output_max]`.  With `output_limits = (50, 100)` the hardcoded
initial `prev_output = 30` is below `output_min`, and the deadband branch of
the very first `calcular` call (measured `74.5`, error `-0.5` decreasing
from `0`) returns it unchanged: the output is `30 < 50`. -/
theorem pid_output_outside_limits_cex :
    ¬ ((mkControlador 3.5 0.25 2 75 50 100 (-50) 50).output_min ≤
        ((mkControlador 3.5 0.25 2 75 50 100 (-50) 50).calcular 74.5 1).1) := by
  norm_num [ControladorPID.calcular, mkControlador, abs_lt]

/-- Claim C1 (amended): for every constructor configuration whose output
limits contain the hardcoded initial command `30`, every `dt ≥ 0`, and every
sequence of `calcular` (each with `dt ≥ 0`) and `reiniciar` calls, the value
returned by `calcular` lies within `[output_min, output_max]`, including the
value returned from the deadband early-return branch. -/
theorem pid_output_within_limits (kp ki kd sp omin omax imin imax : ℚ)
    (hlo : omin ≤ 30) (hhi : 30 ≤ omax) (ops : List CtlOp)
    (hops : ∀ op ∈ ops, dtNonneg op) (m dt : ℚ) (hdt : 0 ≤ dt) :
    omin ≤ ((runCtl (mkControlador kp ki kd sp omin omax imin imax) ops).calcular m dt).1 ∧
      ((runCtl (mkControlador kp ki kd sp omin omax imin imax) ops).calcular m dt).1 ≤ omax := by
  have hinv := outInv_runCtl omin omax ⟨hlo, hhi⟩ ops
    (mkControlador kp ki kd sp omin omax imin imax) ⟨rfl, rfl, hlo, hhi⟩ hops
  obtain ⟨e1, e2, b1, b2⟩ := hinv
  have hout := calcular_output_mem _ m dt hdt (by rw [e1]; exact b1)
    (by rw [e2]; exact b2)
  exact ⟨e1.symm.trans_le hout.1, hout.2.trans_eq e2⟩

/-- Witness for C1's amended theorem at the repository's configuration. -/
theorem pid_output_within_limits_witness :
    (30 : ℚ) ≤ ((runCtl (mkControlador 1.8 0.12 1.2 75 30 100 (-25) 25)
        [CtlOp.calcularOp 80 (1/60), CtlOp.reiniciarOp]).calcular 90 (1/60)).1 ∧
      ((runCtl (mkControlador 1.8 0.12 1.2 75 30 100 (-25) 25)
        [CtlOp.calcularOp 80 (1/60), CtlOp.reiniciarOp]).calcular 90 (1/60)).1 ≤ 100 :=
  pid_output_within_limits 1.8 0.12 1.2 75 30 100 (-25) 25 (by norm_num)
    (by norm_num) _ (by intro op hop; fin_cases hop <;> norm_num [dtNonneg])
    90 (1/60) (by norm_num)

/-- Claim C2 (counterexample): with `setpoint = 75`, `deadband = 1` and
`prev_error = 2`, the call `calculate(76, 1)` gives `error = 1`, and the
deadband test `|error| < deadband` is *strict*, so `1 < 1` fails: the call
takes the normal PID path and returns `31.75`, not the previous output
`30`. -/
theorem pid_deadband_at_boundary_cex :
    (({ mkControlador 3.5 0.25 2 75 30 100 (-50) 50 with
          prev_error := 2 } : ControladorPID).calcular 76 1).1 ≠
      ({ mkControlador 3.5 0.25 2 75 30 100 (-50) 50 with
          prev_error := 2 } : ControladorPID).prev_output := by
  norm_num [ControladorPID.calcular, mkControlador, abs_lt]

/-- Claim C2 (amended): whenever the error is strictly inside the deadband
(`|measured − setpoint| < deadband`, e.g. measured `75.5` rather than `76`
for `setpoint = 75`, `deadband = 1`) and strictly decreasing
(`error < prev_error`, e.g. from `prev_error = 2`), `calcular` returns
exactly the previous tick's output `prev_output` and only updates
`prev_error`. -/
theorem pid_deadband_returns_prev (c : ControladorPID) (m dt : ℚ)
    (h1 : |m - c.setpoint| < c.deadband) (h2 : m - c.setpoint < c.prev_error) :
    (c.calcular m dt).1 = c.prev_output ∧
      (c.calcular m dt).2 = { c with prev_error := m - c.setpoint } := by
  rw [calcular_deadband c m dt h1 h2]
  exact ⟨rfl, rfl⟩

/-- Witness for C2's amended theorem: measured `75.5`, `prev_error = 2`. -/
theorem pid_deadband_returns_prev_witness :
    (({ mkControlador 1.8 0.12 1.2 75 30 100 (-25) 25 with
          prev_error := 2 } : ControladorPID).calcular 75.5 (1/60)).1 =
      ({ mkControlador 1.8 0.12 1.2 75 30 100 (-25) 25 with
          prev_error := 2 } : ControladorPID).prev_output :=
  (pid_deadband_returns_prev _ 75.5 (1/60)
    (by norm_num [mkControlador, abs_lt]) (by norm_num [mkControlador])).1

/-- Claim C3 (counterexample): with `output_limits = (50, 100)` the state
right after construction has `prev_output = 30 ≠ 50 = output_min`: the
constructor and `reiniciar` store the hardcoded literal `30.0`, not
`output_min`. -/
theorem pid_init_prev_output_cex :
    (mkControlador 3.5 0.25 2 75 50 100 (-50) 50).prev_output ≠
      (mkControlador 3.5 0.25 2 75 50 100 (-50) 50).output_min := by
  norm_num [mkControlador]

/-- Claim C3 (amended): for every constructor configuration, immediately
after construction the state satisfies `prev_error = 0`, `integral = 0` and
`prev_output = 30` (the hardcoded literal, which equals `output_min` only
when `output_min = 30`, as in every configuration the repository builds),
and `reiniciar` restores exactly those three fields and changes nothing
else. -/
theorem pid_init_reset_state (kp ki kd sp omin omax imin imax : ℚ) :
    (mkControlador kp ki kd sp omin omax imin imax).prev_error = 0 ∧
      (mkControlador kp ki kd sp omin omax imin imax).integral = 0 ∧
      (mkControlador kp ki kd sp omin omax imin imax).prev_output = 30 ∧
      ∀ c : ControladorPID,
        c.reiniciar = { c with prev_error := 0, integral := 0, prev_output := 30 } :=
  ⟨rfl, rfl, rfl, fun _ => rfl⟩

/-- Claim C4: starting from the freshly constructed plant, after any sequence
of `actualizar` / `ajustar_carga` calls (any fan speed, load and `dt`
inputs, and any fan curve), one further `actualizar` step leaves the
temperature at or above the ambient temperature. -/
theorem plant_temp_ge_ambient (fanCurve : ℚ → ℚ) (ops : List PlantOp)
    (v dt : ℚ) :
    (runPlant fanCurve compInit ops).temp_ambiente ≤
      ((runPlant fanCurve compInit ops).actualizar fanCurve v dt).temperatura := by
  have hc := runPlant_consts fanCurve ops compInit
  have h : (runPlant fanCurve compInit ops).temp_ambiente ≤
      (runPlant fanCurve compInit ops).temp_maxima := by
    rw [hc.1, hc.2.1]; norm_num [compInit]
  exact (actualizar_temp_mem fanCurve _ v dt h).1

/-- Claim C5: the damage flag is sticky — from any damaged state, any
sequence of `actualizar` and `ajustar_carga` calls leaves `danada = true`;
and a freshly constructed plant starts with `danada = false`. -/
theorem plant_damage_sticky :
    (∀ (fanCurve : ℚ → ℚ) (s : ComputadoraSimulada) (ops : List PlantOp),
        s.danada = true → (runPlant fanCurve s ops).danada = true) ∧
      compInit.danada = false :=
  ⟨fun fc _ ops h => runPlant_danada_mono fc ops _ h, rfl⟩

/-- Witness for C5 at a concrete damaged state and operation sequence. -/
theorem plant_damage_sticky_witness :
    (runPlant (fun _ => 0) { compInit with danada := true }
        [PlantOp.actualizarOp 50 (1/60), PlantOp.ajustarCargaOp 80]).danada = true :=
  plant_damage_sticky.1 (fun _ => 0) { compInit with danada := true } _ rfl

/-- Claim C6 (counterexample): with `integrator_limits = (5, 10)` the
accumulator starts at `0 < 5 = int_min` and the deadband branch (measured
`74.5`, error `-0.5` decreasing from `0`) leaves it there, so after that
call the integral is outside `[int_min, int_max]`. -/
theorem pid_integral_outside_limits_cex :
    ¬ ((mkControlador 3.5 0.25 2 75 30 100 5 10).int_min ≤
        ((mkControlador 3.5 0.25 2 75 30 100 5 10).calcular 74.5 1).2.integral) := by
  norm_num [ControladorPID.calcular, mkControlador, abs_lt]

/-- Claim C6 (amended): for every constructor configuration whose integrator
limits contain `0` (as in every configuration the repository builds), after
any sequence of `calcular` and `reiniciar` calls (any measured temperatures
and any `dt`), the integral accumulator lies within `[int_min, int_max]`. -/
theorem pid_integral_within_limits (kp ki kd sp omin omax imin imax : ℚ)
    (h1 : imin ≤ 0) (h2 : 0 ≤ imax) (ops : List CtlOp) :
    imin ≤ (runCtl (mkControlador kp ki kd sp omin omax imin imax) ops).integral ∧
      (runCtl (mkControlador kp ki kd sp omin omax imin imax) ops).integral ≤ imax := by
  have hinv := intInv_runCtl imin imax ⟨h1, h2⟩ ops
    (mkControlador kp ki kd sp omin omax imin imax) ⟨rfl, rfl, h1, h2⟩
  exact ⟨hinv.2.2.1, hinv.2.2.2⟩

/-- Witness for C6's amended theorem at the repository's configuration. -/
theorem pid_integral_within_limits_witness :
    (-25 : ℚ) ≤ (runCtl (mkControlador 1.8 0.12 1.2 75 30 100 (-25) 25)
        [CtlOp.calcularOp 80 (1/60), CtlOp.reiniciarOp,
          CtlOp.calcularOp 90 (1/60)]).integral ∧
      (runCtl (mkControlador 1.8 0.12 1.2 75 30 100 (-25) 25)
        [CtlOp.calcularOp 80 (1/60), CtlOp.reiniciarOp,
          CtlOp.calcularOp 90 (1/60)]).integral ≤ 25 :=
  pid_integral_within_limits 1.8 0.12 1.2 75 30 100 (-25) 25 (by norm_num)
    (by norm_num) _

/-- Claim C7: for every controller state and every `dt ≥ 0`, the change of
the emitted command relative to the previous tick's output is at most
`25*dt` when the error `measured − setpoint` exceeds `10`, and at most
`15*dt` otherwise (the deadband branch changes the output by `0`). -/
theorem pid_slew_rate (c : ControladorPID) (m dt : ℚ) (hdt : 0 ≤ dt) :
    |(c.calcular m dt).1 - c.prev_output| ≤
      if 10 < m - c.setpoint then 25 * dt else 15 * dt := by
  have h := calcular_slew_bound c m dt hdt
  unfold pidMaxCambio at h
  exact h

/-- Witness for C7 at the repository's configuration. -/
theorem pid_slew_rate_witness :
    |((mkControlador 1.8 0.12 1.2 75 30 100 (-25) 25).calcular 90 (1/60)).1 -
        (mkControlador 1.8 0.12 1.2 75 30 100 (-25) 25).prev_output| ≤
      if 10 < (90 : ℚ) - (mkControlador 1.8 0.12 1.2 75 30 100 (-25) 25).setpoint
      then 25 * (1/60) else 15 * (1/60) :=
  pid_slew_rate _ 90 (1/60) (by norm_num)

/-- Claim C8: in every `actualizar` call with `dt ≥ 0` from a state with a
nonnegative overheat timer: if the post-integration temperature reaches
`temp_critica` the timer increases by exactly `dt`, and (when the plant was
not already damaged and the temperature stayed below `temp_maxima`) the
damage flag is set exactly when the incremented timer exceeds `10`;
otherwise the timer becomes `max 0 (timer − 2*dt)`; in all cases the timer
stays nonnegative. -/
theorem plant_overheat_timer (fanCurve : ℚ → ℚ) (s : ComputadoraSimulada)
    (v dt : ℚ) (hdt : 0 ≤ dt) (ht : 0 ≤ s.tiempo_sobrecalentamiento) :
    (s.temp_critica ≤ (s.actualizar fanCurve v dt).temperatura →
        (s.actualizar fanCurve v dt).tiempo_sobrecalentamiento =
            s.tiempo_sobrecalentamiento + dt ∧
          (s.danada = false →
            (s.actualizar fanCurve v dt).temperatura < s.temp_maxima →
            ((s.actualizar fanCurve v dt).danada = true ↔
              10 < s.tiempo_sobrecalentamiento + dt))) ∧
      ((s.actualizar fanCurve v dt).temperatura < s.temp_critica →
        (s.actualizar fanCurve v dt).tiempo_sobrecalentamiento =
          max 0 (s.tiempo_sobrecalentamiento - dt * 2)) ∧
      0 ≤ (s.actualizar fanCurve v dt).tiempo_sobrecalentamiento := by
  rw [actualizar_eq]
  split_ifs with hcrit hdan <;> dsimp only
  · refine ⟨fun _ => ⟨rfl, fun _ _ => ?_⟩,
      fun hlt => absurd hlt (not_lt.mpr hcrit), by linarith⟩
    simp [hdan]
  · refine ⟨fun _ => ⟨rfl, fun hnd hlt => ?_⟩,
      fun hlt => absurd hlt (not_lt.mpr hcrit), by linarith⟩
    have hmax : ¬ s.temp_maxima ≤ plantTempAmbClamped fanCurve s v dt := by
      intro hm
      have heq : plantTempNext fanCurve s v dt = s.temp_maxima := by
        unfold plantTempNext; rw [if_pos hm]
      rw [heq] at hlt
      exact lt_irrefl _ hlt
    unfold plantDanada1
    rw [if_neg hmax, hnd]
    simp [hdan]
  · exact ⟨fun hge => absurd hge hcrit, fun _ => rfl, le_max_left 0 _⟩

/-- Witness for C8 at the freshly constructed plant. -/
theorem plant_overheat_timer_witness :
    0 ≤ (compInit.actualizar (fun _ => 0) 30 (1/60)).tiempo_sobrecalentamiento :=
  (plant_overheat_timer (fun _ => 0) compInit 30 (1/60) (by norm_num)
    (by norm_num [compInit])).2.2

/-- Claim C9: for every constructor configuration and any prior history of
`calcular`/`reiniciar` calls, calling `reiniciar` and then feeding any
sequence of `(measured, dt)` inputs produces exactly the output sequence of
a freshly constructed controller with the same configuration on the same
inputs. -/
theorem pid_reset_equals_fresh (kp ki kd sp omin omax imin imax : ℚ)
    (hist : List CtlOp) (inputs : List (ℚ × ℚ)) :
    outputsFrom
        ((runCtl (mkControlador kp ki kd sp omin omax imin imax) hist).reiniciar)
        inputs =
      outputsFrom (mkControlador kp ki kd sp omin omax imin imax) inputs := by
  have h := runCtl_sameConfig hist (mkControlador kp ki kd sp omin omax imin imax)
  rw [reiniciar_eq_of_sameConfig _ _ h]
  rfl

/-- Claim C10: starting from the freshly constructed plant, after any
sequence of `actualizar` / `ajustar_carga` calls and one further
`actualizar` step, the temperature lies in
`[temp_ambiente, temp_maxima] = [24, 110]`. -/
theorem plant_temp_within_bounds (fanCurve : ℚ → ℚ) (ops : List PlantOp)
    (v dt : ℚ) :
    compInit.temp_ambiente ≤
        ((runPlant fanCurve compInit ops).actualizar fanCurve v dt).temperatura ∧
      ((runPlant fanCurve compInit ops).actualizar fanCurve v dt).temperatura ≤
        compInit.temp_maxima := by
  have hc := runPlant_consts fanCurve ops compInit
  have h : (runPlant fanCurve compInit ops).temp_ambiente ≤
      (runPlant fanCurve compInit ops).temp_maxima := by
    rw [hc.1, hc.2.1]; norm_num [compInit]
  have hm := actualizar_temp_mem fanCurve _ v dt h
  constructor
  · rw [← hc.1]; exact hm.1
  · rw [← hc.2.1]; exact hm.2

example : ((mkControlador 3.5 0.25 2 75 50 100 (-50) 50).calcular 74.5 1).1 = 30 := by
  norm_num [ControladorPID.calcular, mkControlador, abs_lt]

example :
    ({ mkControlador 3.5 0.25 2 75 30 100 (-50) 50 with
        prev_error := 2 }.calcular 76 1).1 = 31.75 := by
  norm_num [ControladorPID.calcular, mkControlador, abs_lt]

example : (compInit.actualizar (fun _ => 0) 30 (1 / 60)).danada = false := by
  norm_num [ComputadoraSimulada.actualizar, compInit]
